import Mathlib

/-!
Shallow embedding of the flyby-backend flight-search server (src/server.js,
unified Amadeus/SerpApi variant).  JavaScript values that may be `undefined`
are modelled as `Option`; JavaScript truthiness on strings ("" and
`undefined` are falsy) is made explicit through the `jsTruthy`/`jsOr`
helpers; template-literal interpolation of a possibly-`undefined` value is
modelled by `tmplS` (rendering `undefined` as the literal string
"undefined", as JavaScript does).  String operations used by the server
(`toUpperCase`, `trim`, `split(',')`, decimal rendering of numbers,
`parseInt`) are modelled by structurally recursive functions over the
character list so that every definition evaluates by `decide`.
-/

/-- Decimal digit character for a value below ten (JS number rendering). -/
def digitChar (n : Nat) : Char :=
  match n with
  | 0 => '0'
  | 1 => '1'
  | 2 => '2'
  | 3 => '3'
  | 4 => '4'
  | 5 => '5'
  | 6 => '6'
  | 7 => '7'
  | 8 => '8'
  | 9 => '9'
  | _ => '*'

/-- Decimal digits of `n`, most significant first; `fuel` bounds recursion. -/
def natDigitsAux : Nat → Nat → List Char
  | 0, n => [digitChar (n % 10)]
  | fuel + 1, n =>
      if n < 10 then [digitChar n]
      else natDigitsAux fuel (n / 10) ++ [digitChar (n % 10)]

/-- Decimal rendering of a natural number, as a JS template literal does. -/
def natToString (n : Nat) : String :=
  ⟨natDigitsAux n n⟩

/-- JS truthiness of a possibly-undefined string: `undefined` and `""` are falsy. -/
def jsTruthyS : Option String → Bool
  | none => false
  | some s => s != ""

/-- JS `a || d` where `a` is a possibly-undefined string and `d` a string. -/
def jsOrStrO (a : Option String) (d : String) : String :=
  match a with
  | none => d
  | some s => if s = "" then d else s

/-- JS `a || b` where both operands are possibly-undefined strings. -/
def jsOrOpt (a b : Option String) : Option String :=
  match a with
  | none => b
  | some s => if s = "" then b else some s

/-- JS `a || null` on a possibly-undefined string (empty string becomes null). -/
def jsOrNullS (a : Option String) : Option String :=
  match a with
  | none => none
  | some s => if s = "" then none else some s

/-- JS template interpolation of a possibly-undefined string value. -/
def tmplS (a : Option String) : String :=
  a.getD "undefined"

/-- ASCII uppercase of one character (JS `toUpperCase` on the modelled charset). -/
def jsUpperChar (c : Char) : Char :=
  if 97 ≤ c.toNat ∧ c.toNat ≤ 122 then Char.ofNat (c.toNat - 32) else c

/-- JS `String.prototype.toUpperCase`. -/
def jsToUpper (s : String) : String :=
  ⟨s.data.map jsUpperChar⟩

/-- Whitespace test used by `trim`. -/
def jsIsSpace (c : Char) : Bool :=
  c == ' ' || c == '\t' || c == '\n' || c == '\r'

/-- JS `String.prototype.trim`. -/
def jsTrim (s : String) : String :=
  ⟨((s.data.dropWhile jsIsSpace).reverse.dropWhile jsIsSpace).reverse⟩

/-- Split a character list at every occurrence of `sep` (JS `split`). -/
def splitCharAux (sep : Char) : List Char → List (List Char)
  | [] => [[]]
  | c :: rest =>
      match splitCharAux sep rest with
      | [] => [[c]]
      | h :: t => if c = sep then [] :: h :: t else (c :: h) :: t


/-- JS `s.split(sep)` for a one-character separator. -/
def jsSplit (s : String) (sep : Char) : List String :=
  (splitCharAux sep s.data).map (fun l => ⟨l⟩)

/-- Value of a list of decimal digit characters. -/
def digitsVal (l : List Char) : Nat :=
  l.foldl (fun acc c => acc * 10 + (c.toNat - 48)) 0

/-- Leading run of decimal digits, or `none` when there is none (NaN). -/
def leadDigitsVal (l : List Char) : Option Nat :=
  match l.takeWhile Char.isDigit with
  | [] => none
  | ds => some (digitsVal ds)

/-- JS `parseInt(s, 10)`: skip surrounding whitespace, optional sign, then the
leading run of decimal digits; `none` models `NaN`. -/
def parseIntJS (s : String) : Option Int :=
  match (jsTrim s).data with
  | '-' :: rest => (leadDigitsVal rest).map (fun n => -(n : Int))
  | '+' :: rest => (leadDigitsVal rest).map (fun n => (n : Int))
  | l => (leadDigitsVal l).map (fun n => (n : Int))

/-- JS `a || d` on a possibly-NaN number (`NaN` and `0` are falsy). -/
def jsNumOr (o : Option Int) (d : Int) : Int :=
  match o with
  | none => d
  | some n => if n = 0 then d else n

/-- Lookup in a JS object used as a dictionary (first matching key). -/
def lookupDict (d : List (String × String)) (k : String) : Option String :=
  (d.find? (fun p => p.1 = k)).map (fun p => p.2)

/-- Static airline fallback names (`AIRLINE_MAP` in server.js). -/
def AIRLINE_MAP : List (String × String) :=
  [("NK", "Spirit Airlines"),
   ("F9", "Frontier Airlines"),
   ("DL", "Delta Air Lines"),
   ("AA", "American Airlines"),
   ("UA", "United Airlines"),
   ("WN", "Southwest Airlines"),
   ("AS", "Alaska Airlines"),
   ("B6", "JetBlue"),
   ("SY", "Sun Country Airlines")]

/-- Unified output unit returned to the client (one flattened flight). -/
structure FlightRecord where
  id : String
  airline : String
  airlineName : String
  flightNumber : String
  departureIATA : String
  arrivalIATA : String
  departureTime : Option String
  arrivalTime : Option String
  price : Option String
deriving DecidableEq

/-- SerpApi raw airport object (`departure_airport` / `arrival_airport`). -/
structure SerpAirport where
  id : Option String
  time : Option String
deriving DecidableEq

/-- SerpApi raw flight segment (one entry of a result's `flights` array). -/
structure SerpSegment where
  departure_airport : Option SerpAirport
  arrival_airport : Option SerpAirport
  airline : Option String
  flight_number : Option String
deriving DecidableEq

/-- SerpApi raw flight result (one entry of `best_flights`/`other_flights`). -/
structure SerpFlight where
  flights : Option (List SerpSegment)
  booking_token : Option String
  price : Option Nat
deriving DecidableEq

/-- SerpApi raw response document. -/
structure SerpRaw where
  best_flights : Option (List SerpFlight)
  other_flights : Option (List SerpFlight)
deriving DecidableEq

/-- Amadeus raw departure/arrival object (`iataCode`, `at`). -/
structure AmAirport where
  iataCode : Option String
  at' : Option String
deriving DecidableEq

/-- Amadeus raw itinerary segment. -/
structure AmSegment where
  carrierCode : Option String
  number : Option String
  departure : Option AmAirport
  arrival : Option AmAirport
deriving DecidableEq

/-- Amadeus raw itinerary. -/
structure AmItinerary where
  segments : Option (List AmSegment)
deriving DecidableEq

/-- Amadeus raw flight offer. -/
structure AmOffer where
  id : Option String
  itineraries : Option (List AmItinerary)
  validatingAirlineCodes : Option (List String)
  priceTotal : Option String
deriving DecidableEq

/-- Amadeus raw response document (`dictionaries.carriers`, `data`). -/
structure AmRaw where
  dictionaries_carriers : Option (List (String × String))
  data : Option (List AmOffer)
deriving DecidableEq

/-- Empty SerpApi segment (the JS `{}` fallback for `segments[0]`). -/
def emptySerpSegment : SerpSegment :=
  { departure_airport := none, arrival_airport := none, airline := none, flight_number := none }

/-- Empty SerpApi airport (the JS `{}` fallback). -/
def emptySerpAirport : SerpAirport :=
  { id := none, time := none }

/-- Candidate list flattened from `best_flights` then `other_flights`. -/
def serpCandidates (json : SerpRaw) : List SerpFlight :=
  json.best_flights.getD [] ++ json.other_flights.getD []

/-- JS `f.flights || []`. -/
def serpSegments (f : SerpFlight) : List SerpSegment :=
  f.flights.getD []

/-- JS `segments[0] || {}`. -/
def serpFirst (f : SerpFlight) : SerpSegment :=
  (serpSegments f).head?.getD emptySerpSegment

/-- JS `segments[segments.length - 1] || first`. -/
def serpLast (f : SerpFlight) : SerpSegment :=
  (serpSegments f).getLast?.getD (serpFirst f)

/-- JS `first.departure_airport || {}`. -/
def serpDepAirport (f : SerpFlight) : SerpAirport :=
  (serpFirst f).departure_airport.getD emptySerpAirport

/-- JS `last.arrival_airport || {}`. -/
def serpArrAirport (f : SerpFlight) : SerpAirport :=
  (serpLast f).arrival_airport.getD emptySerpAirport

/-- JS `(first.airline || '').toUpperCase()`. -/
def serpAirlineCode (f : SerpFlight) : String :=
  jsToUpper ((serpFirst f).airline.getD "")

/-- JS `first.flight_number || ''`. -/
def serpNumber (f : SerpFlight) : String :=
  (serpFirst f).flight_number.getD ""

/-- Composite part of the synthesized SerpApi id, before the index suffix. -/
def serpIdBase (f : SerpFlight) : String :=
  serpAirlineCode f ++ "_" ++ serpNumber f ++ "_" ++
    (serpDepAirport f).id.getD "" ++ "_" ++ (serpArrAirport f).id.getD ""

/-- Per-record field extraction of `flattenSerpApi` (the body of its `map`). -/
def mapSerpFlight (currency : String) (f : SerpFlight) (idx : Nat) : FlightRecord :=
  { id := jsOrStrO f.booking_token (serpIdBase f ++ "_" ++ natToString idx)
    airline := serpAirlineCode f
    airlineName := serpAirlineCode f
    flightNumber :=
      if serpAirlineCode f ≠ "" ∧ serpNumber f ≠ "" then serpAirlineCode f ++ serpNumber f
      else serpNumber f
    departureIATA := (serpDepAirport f).id.getD ""
    arrivalIATA := (serpArrAirport f).id.getD ""
    departureTime := jsOrNullS (serpDepAirport f).time
    arrivalTime := jsOrNullS (serpArrAirport f).time
    price :=
      match f.price with
      | none => none
      | some p => if p = 0 then none else some (jsToUpper currency ++ " " ++ natToString p) }

/-- Flatten a SerpApi response into the unified flight shape (`flattenSerpApi`):
map each candidate, drop records outside the include set when one is supplied
and non-empty, then `slice(0, max)` when `max` is a positive number. -/
def flattenSerpApi (json : SerpRaw) (currency : String) (max : Int)
    (includeFilter : Option (List String)) : List FlightRecord :=
  let flights := (serpCandidates json).enum.map (fun p => mapSerpFlight currency p.2 p.1)
  let filtered :=
    match includeFilter with
    | some l => if l ≠ [] then flights.filter (fun f => decide (jsToUpper f.airline ∈ l)) else flights
    | none => flights
  if 0 < max then filtered.take max.toNat else filtered

/-- Empty Amadeus segment (the JS `{}` fallback for `seg[0]`/`seg[seg.length-1]`). -/
def emptyAmSegment : AmSegment :=
  { carrierCode := none, number := none, departure := none, arrival := none }

/-- Empty Amadeus departure/arrival object (the JS `{}` fallback). -/
def emptyAmAirport : AmAirport :=
  { iataCode := none, at' := none }

/-- JS `offer.itineraries?.[0]?.segments || []`. -/
def amSegs (o : AmOffer) : List AmSegment :=
  match o.itineraries with
  | none => []
  | some its =>
      match its.head? with
      | none => []
      | some it => it.segments.getD []

/-- JS `seg[0] || {}`. -/
def amFirst (o : AmOffer) : AmSegment :=
  (amSegs o).head?.getD emptyAmSegment

/-- JS `seg[seg.length - 1] || {}`. -/
def amLast (o : AmOffer) : AmSegment :=
  (amSegs o).getLast?.getD emptyAmSegment

/-- JS `first.departure || {}`. -/
def amDep (o : AmOffer) : AmAirport :=
  (amFirst o).departure.getD emptyAmAirport

/-- JS `last.arrival || {}`. -/
def amArr (o : AmOffer) : AmAirport :=
  (amLast o).arrival.getD emptyAmAirport

/-- JS `first.carrierCode || offer.validatingAirlineCodes?.[0] || ''`. -/
def amCarrier (o : AmOffer) : String :=
  (jsOrOpt (amFirst o).carrierCode (o.validatingAirlineCodes.getD []).head?).getD ""

/-- JS `carriers[carrier] || AIRLINE_MAP[carrier] || carrier`. -/
def amAirlineName (carriers : List (String × String)) (o : AmOffer) : String :=
  jsOrStrO (lookupDict carriers (amCarrier o))
    (jsOrStrO (lookupDict AIRLINE_MAP (amCarrier o)) (amCarrier o))

/-- Per-offer mapping of the Amadeus branch (the body of `offers.map`). -/
def mapAmadeusOffer (carriers : List (String × String)) (safeCurrency : String)
    (o : AmOffer) : FlightRecord :=
  { id := jsOrStrO o.id
      (amCarrier o ++ "_" ++ tmplS (amFirst o).number ++ "_" ++
        tmplS (amDep o).iataCode ++ "_" ++ tmplS (amArr o).iataCode)
    airline := amCarrier o
    airlineName := amAirlineName carriers o
    flightNumber := amCarrier o ++ tmplS (amFirst o).number
    departureIATA := (amDep o).iataCode.getD ""
    arrivalIATA := (amArr o).iataCode.getD ""
    departureTime := jsOrNullS (amDep o).at'
    arrivalTime := jsOrNullS (amArr o).at'
    price :=
      match o.priceTotal with
      | none => none
      | some t => if t = "" then none else some (safeCurrency ++ " " ++ t) }

/-- Amadeus-branch normalization: map every offer, then apply the include
filter when a non-empty include set was supplied (no local truncation). -/
def amadeusFlights (raw : AmRaw) (safeCurrency : String)
    (includeSet : Option (List String)) : List FlightRecord :=
  let carriers := raw.dictionaries_carriers.getD []
  let offers := raw.data.getD []
  let flights := offers.map (mapAmadeusOffer carriers safeCurrency)
  match includeSet with
  | some l => if l ≠ [] then flights.filter (fun f => decide (jsToUpper f.airline ∈ l)) else flights
  | none => flights

/-- Token cache: one bearer token plus its absolute expiry instant (epoch s). -/
structure TokenState where
  cachedToken : Option String
  tokenExpiry : Int
deriving DecidableEq

/-- Outcome of the OAuth token fetch (`res.ok` with JSON body, or a status). -/
inductive TokenFetchResult where
  | ok (access_token : String) (expires_in : Int)
  | err (status : Nat)
deriving DecidableEq

/-- Network interactions the endpoint can perform. -/
inductive UpstreamCall where
  | tokenFetch
  | amadeusSearch
  | serpApiSearch
deriving DecidableEq

/-- Unified `getToken`: return `null` for a non-Amadeus provider; reuse the
cached token while the current time is more than 30 s before its expiry;
otherwise require credentials and fetch, mutating the cache only on success
(expiry becomes the post-fetch current time plus the reported lifetime). -/
def getToken (provider : String) (clientId clientSecret : Option String)
    (st : TokenState) (now : Int) (fetchRes : TokenFetchResult) (now2 : Int) :
    Except String (Option String) × TokenState × List UpstreamCall :=
  if provider ≠ "amadeus" then (Except.ok none, st, [])
  else if jsTruthyS st.cachedToken ∧ now < st.tokenExpiry - 30 then
    (Except.ok st.cachedToken, st, [])
  else if ¬ jsTruthyS clientId ∨ ¬ jsTruthyS clientSecret then
    (Except.error "Missing Amadeus credentials", st, [])
  else
    match fetchRes with
    | .err status =>
        (Except.error ("Amadeus auth failed " ++ natToString status), st, [.tokenFetch])
    | .ok tok life =>
        (Except.ok (some tok), { cachedToken := some tok, tokenExpiry := now2 + life }, [.tokenFetch])

/-- Environment-derived configuration of the server process. -/
structure Env where
  provider : String
  clientId : Option String
  clientSecret : Option String
  serpApiKey : Option String

/-- Outcome of a provider search request (`res.ok` body, or status plus text). -/
inductive SearchResult (α : Type) where
  | ok (body : α)
  | err (status : Nat) (text : String)
deriving DecidableEq

/-- Results the network would hand back for each possible upstream request. -/
structure Net where
  tokenResult : TokenFetchResult
  amadeusResult : SearchResult AmRaw
  serpResult : SearchResult SerpRaw

/-- Query parameters of a `GET /amadeus/flights` request. -/
structure Query where
  origin : Option String
  destination : Option String
  date : Option String
  returnDate : Option String
  currency : Option String
  max : Option String
  include' : Option String

/-- JSON response of the endpoint, flattened to the fields the server emits. -/
structure Response where
  status : Nat
  error : Option String
  detail : Option String
  count : Option Nat
  flights : Option (List FlightRecord)
deriving DecidableEq

/-- JS `Math.min(parseInt(max || '20', 10) || 20, 50)`. -/
def computeMaxNum (max : Option String) : Int :=
  min (jsNumOr (parseIntJS (jsOrStrO max "20")) 20) 50

/-- Uppercased, trimmed entries of the comma-separated include parameter. -/
def includeList (s : String) : List String :=
  (jsSplit s ',').map (fun x => jsToUpper (jsTrim x))

/-- JS `include ? new Set(include.split(',').map(s => s.trim().toUpperCase())) : null`. -/
def computeIncludeSet (inc : Option String) : Option (List String) :=
  match inc with
  | none => none
  | some s => if s = "" then none else some (includeList s)

/-- Amadeus branch of the route handler (credential check, token fetch,
flight-offer search, offer mapping, include filter). -/
def handleAmadeus (env : Env) (st : TokenState) (now now2 : Int) (net : Net)
    (safeCurrency : String) (includeSet : Option (List String)) :
    Response × TokenState × List UpstreamCall :=
  if ¬ jsTruthyS env.clientId ∨ ¬ jsTruthyS env.clientSecret then
    ({ status := 500, error := some "Amadeus credentials missing",
       detail := some "Set AMADEUS_CLIENT_ID and AMADEUS_CLIENT_SECRET or change FLYBY_PROVIDER",
       count := none, flights := none }, st, [])
  else
    match getToken env.provider env.clientId env.clientSecret st now net.tokenResult now2 with
    | (Except.error msg, st2, calls) =>
        ({ status := 500, error := some "Server error", detail := some msg,
           count := none, flights := none }, st2, calls)
    | (Except.ok _, st2, calls) =>
        match net.amadeusResult with
        | .err status text =>
            ({ status := status, error := some "Amadeus returned an error", detail := some text,
               count := none, flights := none }, st2, calls ++ [.amadeusSearch])
        | .ok raw =>
            let flights := amadeusFlights raw safeCurrency includeSet
            ({ status := 200, error := none, detail := none,
               count := some flights.length, flights := some flights }, st2,
             calls ++ [.amadeusSearch])

/-- SerpApi branch of the route handler.  A non-success search throws
`Error('SerpApi error <status>: <text>')`, which the route's catch turns into
a 500 `Server error` response with that message as detail. -/
def handleSerp (env : Env) (st : TokenState) (net : Net)
    (safeCurrency : String) (maxNum : Int) (includeSet : Option (List String)) :
    Response × TokenState × List UpstreamCall :=
  if ¬ jsTruthyS env.serpApiKey then
    ({ status := 500, error := some "SerpApi key missing",
       detail := some "Set SERPAPI_KEY environment variable or change FLYBY_PROVIDER",
       count := none, flights := none }, st, [])
  else
    match net.serpResult with
    | .err status text =>
        ({ status := 500, error := some "Server error",
           detail := some ("SerpApi error " ++ natToString status ++ ": " ++ text),
           count := none, flights := none }, st, [.serpApiSearch])
    | .ok json =>
        let flights := flattenSerpApi json safeCurrency maxNum includeSet
        ({ status := 200, error := none, detail := none,
           count := some flights.length, flights := some flights }, st, [.serpApiSearch])

/-- Route handler for `GET /amadeus/flights` (unified variant): validate the
required parameters, parse `max` and the include set, then branch on the
configured provider. -/
def handleFlights (env : Env) (st : TokenState) (now now2 : Int) (net : Net)
    (q : Query) : Response × TokenState × List UpstreamCall :=
  if ¬ jsTruthyS q.origin ∨ ¬ jsTruthyS q.destination ∨ ¬ jsTruthyS q.date then
    ({ status := 400, error := some "Missing origin, destination, or date",
       detail := none, count := none, flights := none }, st, [])
  else if env.provider = "amadeus" then
    handleAmadeus env st now now2 net (jsToUpper (q.currency.getD "USD"))
      (computeIncludeSet q.include')
  else if env.provider = "serpapi" then
    handleSerp env st net (jsToUpper (q.currency.getD "USD"))
      (computeMaxNum q.max) (computeIncludeSet q.include')
  else
    ({ status := 500, error := some ("Unknown provider \x27" ++ env.provider ++ "\x27"),
       detail := none, count := none, flights := none }, st, [])

/-- Concrete Amadeus offer without an id (route AA 100 JFK-LAX). -/
def cexOffer1 : AmOffer :=
  ⟨none, some [⟨some [⟨some "AA", some "100", some ⟨some "JFK", some "2025-06-01T08:00"⟩, some ⟨some "LAX", some "2025-06-01T11:00"⟩⟩]⟩], none, some "100.00"⟩

/-- Same route as `cexOffer1` at a different price. -/
def cexOffer2 : AmOffer :=
  ⟨none, some [⟨some [⟨some "AA", some "100", some ⟨some "JFK", some "2025-06-01T08:00"⟩, some ⟨some "LAX", some "2025-06-01T11:00"⟩⟩]⟩], none, some "200.00"⟩

/-- Concrete Amadeus raw document with two offers. -/
def cexAmRaw : AmRaw := ⟨none, some [cexOffer1, cexOffer2]⟩

/-- Concrete SerpApi segment (DL 100 JFK-LAX). -/
def cexSerpSegment : SerpSegment :=
  ⟨some ⟨some "JFK", some "2025-06-01 08:00"⟩, some ⟨some "LAX", some "2025-06-01 11:00"⟩, some "DL", some "100"⟩

/-- Concrete SerpApi candidate without a booking token. -/
def cexSerpFlight : SerpFlight := ⟨some [cexSerpSegment], none, some 200⟩

/-- Concrete SerpApi raw document with one best flight. -/
def cexSerpRaw : SerpRaw := ⟨some [cexSerpFlight], none⟩

/-- SerpApi candidate that carries a booking token. -/
def cexSerpTok : SerpFlight := ⟨none, some "tokenX", none⟩

/-- SerpApi candidate with every optional field absent. -/
def cexEmptySerpFlight : SerpFlight := ⟨none, none, none⟩

/-- Amadeus offer with every optional field absent. -/
def cexEmptyOffer : AmOffer := ⟨none, none, none, none⟩

/-- Amadeus offer whose carrier resolves to AA via the validating codes. -/
def cexOfferAA : AmOffer := ⟨none, none, some ["AA"], none⟩

/-- Amadeus offer whose carrier resolves to DL via the validating codes. -/
def cexOfferDL : AmOffer := ⟨none, none, some ["DL"], none⟩

/-- Amadeus offer whose carrier code is unknown to both dictionaries. -/
def cexOfferZZ : AmOffer := ⟨none, none, some ["ZZ"], none⟩

/-- Amadeus offer that carries a provider offer id. -/
def cexOfferWithId : AmOffer := ⟨some "OFF1", none, none, none⟩

/-- Amadeus offer whose first segment has no flight number. -/
def cexOfferNoNum : AmOffer :=
  ⟨none, some [⟨some [⟨some "AA", none, some ⟨some "JFK", none⟩, some ⟨some "LAX", none⟩⟩]⟩], none, none⟩

/-- Environment selecting the Amadeus provider with credentials present. -/
def cexEnvAmadeus : Env := ⟨"amadeus", some "id", some "secret", none⟩

/-- Environment selecting the SerpApi provider with a key present. -/
def cexEnvSerp : Env := ⟨"serpapi", none, none, some "key"⟩

/-- Token cache holding a token valid far in the future. -/
def cexTokenState : TokenState := ⟨some "tok", 1000⟩

/-- Valid query requesting at most one result. -/
def cexQueryMax1 : Query := ⟨some "JFK", some "LAX", some "2025-06-01", none, none, some "1", none⟩

/-- Valid query with no optional parameters. -/
def cexQueryPlain : Query := ⟨some "JFK", some "LAX", some "2025-06-01", none, none, none, none⟩

/-- Valid query with an include allow-list. -/
def cexQueryInc : Query := ⟨some "JFK", some "LAX", some "2025-06-01", none, none, none, some "dl, aa"⟩

/-- Query missing its origin. -/
def cexQueryMissing : Query := ⟨none, some "LAX", some "2025-06-01", none, none, none, none⟩

/-- Network whose Amadeus search succeeds with `cexAmRaw`. -/
def cexNetAmadeusOk : Net := ⟨.err 401, .ok cexAmRaw, .err 500 "x"⟩

/-- Network whose Amadeus search fails with status 503. -/
def cexNetAmadeusErr : Net := ⟨.err 401, .err 503 "Service down", .err 500 "x"⟩

/-- Network whose SerpApi search succeeds with `cexSerpRaw`. -/
def cexNetSerpOk : Net := ⟨.err 401, .err 500 "x", .ok cexSerpRaw⟩

/-- Network whose SerpApi search fails with status 404. -/
def cexNetSerpErr : Net := ⟨.err 401, .err 500 "x", .err 404 "Not found"⟩

/-- Character code of a decimal digit character. -/
theorem digitChar_toNat (d : Nat) (hd : d < 10) : (digitChar d).toNat = 48 + d := by
  interval_cases d <;> rfl

/-- Decimal digit characters are never the underscore separator. -/
theorem digitChar_ne_underscore (d : Nat) (hd : d < 10) : digitChar d ≠ '_' := by
  interval_cases d <;> decide

/-- Appending one digit multiplies the accumulated value by ten. -/
theorem digitsVal_append_one (l : List Char) (c : Char) :
    digitsVal (l ++ [c]) = digitsVal l * 10 + (c.toNat - 48) := by
  simp [digitsVal, List.foldl_append]

/-- The fuelled digit rendering evaluates back to its input. -/
theorem natDigitsAux_val : ∀ fuel n, n ≤ fuel → digitsVal (natDigitsAux fuel n) = n := by
  intro fuel
  induction fuel with
  | zero =>
      intro n hn
      have h0 : n = 0 := Nat.le_zero.mp hn
      subst h0
      decide
  | succ fuel ih =>
      intro n hn
      by_cases h : n < 10
      · simp only [natDigitsAux, if_pos h, digitsVal, List.foldl]
        have := digitChar_toNat n h
        omega
      · simp only [natDigitsAux, if_neg h]
        rw [digitsVal_append_one]
        have hrec := ih (n / 10) (by omega)
        have hmod := digitChar_toNat (n % 10) (Nat.mod_lt n (by omega))
        omega

/-- The fuelled digit rendering never contains an underscore. -/
theorem natDigitsAux_ne_underscore : ∀ fuel n, '_' ∉ natDigitsAux fuel n := by
  intro fuel
  induction fuel with
  | zero =>
      intro n
      have hlt : n % 10 < 10 := Nat.mod_lt n (by omega)
      simp only [natDigitsAux, List.mem_singleton]
      intro h
      exact digitChar_ne_underscore (n % 10) hlt h.symm
  | succ fuel ih =>
      intro n
      by_cases h : n < 10
      · simp only [natDigitsAux, if_pos h, List.mem_singleton]
        intro hmem
        exact digitChar_ne_underscore n h hmem.symm
      · simp only [natDigitsAux, if_neg h, List.mem_append, List.mem_singleton]
        rintro (hmem | hmem)
        · exact ih (n / 10) hmem
        · exact digitChar_ne_underscore (n % 10) (Nat.mod_lt n (by omega)) hmem.symm

/-- Decimal renderings of distinct naturals are distinct. -/
theorem natToString_inj {i j : Nat} (h : natToString i = natToString j) : i = j := by
  have hdata : natDigitsAux i i = natDigitsAux j j := congrArg String.data h
  have hi := natDigitsAux_val i i (Nat.le_refl i)
  have hj := natDigitsAux_val j j (Nat.le_refl j)
  rw [← hi, ← hj, hdata]

/-- Two decompositions of a list around a separator absent from both suffixes
have equal suffixes. -/
theorem sep_suffix_eq :
    ∀ (l₁ : List Char) {l₂ s₁ s₂ : List Char},
      l₁ ++ '_' :: s₁ = l₂ ++ '_' :: s₂ → '_' ∉ s₁ → '_' ∉ s₂ → s₁ = s₂ := by
  intro l₁
  induction l₁ with
  | nil =>
      intro l₂ s₁ s₂ h h₁ h₂
      cases l₂ with
      | nil => simpa using h
      | cons b t =>
          simp only [List.nil_append, List.cons_append, List.cons.injEq] at h
          exfalso
          apply h₁
          rw [h.2]
          exact List.mem_append_right t (List.mem_cons_self _ _)
  | cons a t ih =>
      intro l₂ s₁ s₂ h h₁ h₂
      cases l₂ with
      | nil =>
          simp only [List.cons_append, List.nil_append, List.cons.injEq] at h
          exfalso
          apply h₂
          rw [← h.2]
          exact List.mem_append_right t (List.mem_cons_self _ _)
      | cons b t₂ =>
          simp only [List.cons_append, List.cons.injEq] at h
          exact ih h.2 h₁ h₂

/-- A string of the shape `prefix ++ "_" ++ <decimal index>` determines its
index: the index is the digit run after the last underscore. -/
theorem natSuffix_inj (a b : String) (i j : Nat)
    (h : a ++ "_" ++ natToString i = b ++ "_" ++ natToString j) : i = j := by
  have hdata := congrArg String.data h
  simp only [String.data_append] at hdata
  have hi : ("_" : String).data ++ (natToString i).data = '_' :: natDigitsAux i i := rfl
  have hj : ("_" : String).data ++ (natToString j).data = '_' :: natDigitsAux j j := rfl
  rw [List.append_assoc, List.append_assoc, hi, hj] at hdata
  have hsuffix := sep_suffix_eq a.data hdata
    (natDigitsAux_ne_underscore i i) (natDigitsAux_ne_underscore j j)
  exact natToString_inj (congrArg String.mk hsuffix)

/-- JS `a || d` returns the default exactly on falsy input. -/
theorem jsOrStrO_of_falsy {a : Option String} (d : String)
    (h : ¬ jsTruthyS a) : jsOrStrO a d = d := by
  cases a with
  | none => rfl
  | some s =>
      simp only [jsTruthyS, bne_iff_ne, ne_eq, not_not] at h
      simp [jsOrStrO, h]

/-- JS `a || d` returns the value exactly on truthy input. -/
theorem jsOrStrO_of_truthy {a : Option String} {s : String} (d : String)
    (ha : a = some s) (h : s ≠ "") : jsOrStrO a d = s := by
  subst ha
  simp [jsOrStrO, h]

/-- Indices in an enumerated list are pairwise distinct. -/
theorem enum_pairwise_fst {α : Type} (l : List α) :
    l.enum.Pairwise (fun a b => a.1 ≠ b.1) := by
  have h1 : (l.enum.map Prod.fst).Pairwise (fun a b => a ≠ b) := by
    rw [List.enum_map_fst]
    exact List.nodup_range _
  exact List.pairwise_map.mp h1

/-- Every pair delivered by `enum` carries an element of the underlying list. -/
theorem snd_mem_of_mem_enum {α : Type} {l : List α} {p : Nat × α} (hp : p ∈ l.enum) :
    p.2 ∈ l := by
  exact List.getElem?_mem (List.mem_enum_iff_getElem?.mp hp)

/-- Synthesized SerpApi id of a record whose candidate has no booking token. -/
theorem mapSerpFlight_id_of_no_token (cur : String) (f : SerpFlight) (idx : Nat)
    (h : ¬ jsTruthyS f.booking_token) :
    (mapSerpFlight cur f idx).id = serpIdBase f ++ "_" ++ natToString idx := by
  simp only [mapSerpFlight]
  exact jsOrStrO_of_falsy _ h

/-- Both post-processing steps of `flattenSerpApi` (include filter, slice)
produce a sublist of the mapped candidate list. -/
theorem flattenSerpApi_sublist (json : SerpRaw) (cur : String) (max : Int)
    (inc : Option (List String)) :
    (flattenSerpApi json cur max inc).Sublist
      ((serpCandidates json).enum.map (fun p => mapSerpFlight cur p.2 p.1)) := by
  simp only [flattenSerpApi]
  cases inc with
  | none =>
      by_cases hm : 0 < max
      · rw [if_pos hm]
        exact List.take_sublist _ _
      · rw [if_neg hm]
  | some l =>
      by_cases hl : l = []
      · simp only [hl, ne_eq, not_true_eq_false, if_false]
        by_cases hm : 0 < max
        · rw [if_pos hm]
          exact List.take_sublist _ _
        · rw [if_neg hm]
      · simp only [ne_eq, hl, not_false_eq_true, if_true]
        by_cases hm : 0 < max
        · rw [if_pos hm]
          exact (List.take_sublist _ _).trans (List.filter_sublist _)
        · rw [if_neg hm]
          exact List.filter_sublist _

/-- When no candidate carries a booking token, the ids produced by
`flattenSerpApi` are pairwise distinct: each synthesized id ends in the
decimal rendering of the record's index, and the include filter and the
`slice` both preserve pairwise distinctness. -/
theorem flattenSerpApi_pairwise_id (json : SerpRaw) (cur : String) (max : Int)
    (inc : Option (List String))
    (h : ∀ f ∈ serpCandidates json, ¬ jsTruthyS f.booking_token) :
    (flattenSerpApi json cur max inc).Pairwise (fun a b => a.id ≠ b.id) := by
  have base :
      ((serpCandidates json).enum.map (fun p => mapSerpFlight cur p.2 p.1)).Pairwise
        (fun a b => a.id ≠ b.id) := by
    apply List.pairwise_map.mpr
    apply (enum_pairwise_fst (serpCandidates json)).imp_of_mem
    intro a b ha hb hne heq
    have hfa := h a.2 (snd_mem_of_mem_enum ha)
    have hfb := h b.2 (snd_mem_of_mem_enum hb)
    rw [mapSerpFlight_id_of_no_token cur a.2 a.1 hfa,
      mapSerpFlight_id_of_no_token cur b.2 b.1 hfb] at heq
    exact hne (natSuffix_inj _ _ _ _ heq)
  exact List.Pairwise.sublist (flattenSerpApi_sublist json cur max inc) base

/-- Length bound of the Amadeus-branch normalization: at most one record per
offer of the raw document (no local truncation is performed). -/
theorem amadeusFlights_length_le (raw : AmRaw) (cur : String)
    (inc : Option (List String)) :
    (amadeusFlights raw cur inc).length ≤ (raw.data.getD []).length := by
  simp only [amadeusFlights]
  cases inc with
  | none => simp
  | some l =>
      by_cases hl : l = []
      · simp [hl]
      · simp only [ne_eq, hl, not_false_eq_true, if_true]
        calc (((raw.data.getD []).map _).filter _).length
            ≤ ((raw.data.getD []).map (mapAmadeusOffer (raw.dictionaries_carriers.getD []) cur)).length :=
              List.length_filter_le _ _
          _ = (raw.data.getD []).length := List.length_map _ _

/-- Length bounds of `flattenSerpApi` for a positive cap: the result respects
the cap and never exceeds the number of flattened candidates. -/
theorem flattenSerpApi_length_le (json : SerpRaw) (cur : String) (max : Int)
    (inc : Option (List String)) (hmax : 0 < max) :
    (flattenSerpApi json cur max inc).length ≤ max.toNat ∧
    (flattenSerpApi json cur max inc).length ≤ (serpCandidates json).length := by
  constructor
  · simp only [flattenSerpApi]
    rw [if_pos hmax, List.length_take]
    exact min_le_left _ _
  · have hsub := (flattenSerpApi_sublist json cur max inc).length_le
    simpa [List.length_map, List.enum_length] using hsub

/-- Unconditionally, `flattenSerpApi` never returns more records than the
number of flattened candidates, whatever the cap value. -/
theorem flattenSerpApi_length_le_candidates (json : SerpRaw) (cur : String)
    (max : Int) (inc : Option (List String)) :
    (flattenSerpApi json cur max inc).length ≤ (serpCandidates json).length := by
  have hsub := (flattenSerpApi_sublist json cur max inc).length_le
  simpa [List.length_map, List.enum_length] using hsub

/-- Every record surviving the SerpApi include filter has its uppercased
airline code in the include set. -/
theorem mem_flattenSerpApi_include (json : SerpRaw) (cur : String) (max : Int)
    (l : List String) (r : FlightRecord) (hl : l ≠ [])
    (hr : r ∈ flattenSerpApi json cur max (some l)) : jsToUpper r.airline ∈ l := by
  simp only [flattenSerpApi, ne_eq, hl, not_false_eq_true, if_true] at hr
  have hr2 : r ∈ ((serpCandidates json).enum.map (fun p => mapSerpFlight cur p.2 p.1)).filter
      (fun f => decide (jsToUpper f.airline ∈ l)) := by
    by_cases hm : 0 < max
    · rw [if_pos hm] at hr
      exact List.mem_of_mem_take hr
    · rw [if_neg hm] at hr
      exact hr
  exact of_decide_eq_true (List.mem_filter.mp hr2).2

/-- Every record surviving the Amadeus include filter has its uppercased
airline code in the include set. -/
theorem mem_amadeusFlights_include (raw : AmRaw) (cur : String)
    (l : List String) (r : FlightRecord) (hl : l ≠ [])
    (hr : r ∈ amadeusFlights raw cur (some l)) : jsToUpper r.airline ∈ l := by
  simp only [amadeusFlights, ne_eq, hl, not_false_eq_true, if_true] at hr
  exact of_decide_eq_true (List.mem_filter.mp hr).2

/-- Inversion of the route handler on responses that carry a flight list: the
list is exactly the output of the matching normalizer. -/
theorem handleFlights_flights_inv (env : Env) (st : TokenState) (now now2 : Int)
    (net : Net) (q : Query) (fl : List FlightRecord)
    (h : (handleFlights env st now now2 net q).1.flights = some fl) :
    (∃ raw, env.provider = "amadeus" ∧ net.amadeusResult = SearchResult.ok raw ∧
        fl = amadeusFlights raw (jsToUpper (q.currency.getD "USD")) (computeIncludeSet q.include')) ∨
    (∃ json, env.provider = "serpapi" ∧ net.serpResult = SearchResult.ok json ∧
        fl = flattenSerpApi json (jsToUpper (q.currency.getD "USD")) (computeMaxNum q.max)
          (computeIncludeSet q.include')) := by
  unfold handleFlights at h
  by_cases hval : ¬ jsTruthyS q.origin ∨ ¬ jsTruthyS q.destination ∨ ¬ jsTruthyS q.date
  · rw [if_pos hval] at h
    simp at h
  · rw [if_neg hval] at h
    by_cases hp : env.provider = "amadeus"
    · rw [if_pos hp] at h
      unfold handleAmadeus at h
      by_cases hc : ¬ jsTruthyS env.clientId ∨ ¬ jsTruthyS env.clientSecret
      · rw [if_pos hc] at h
        simp at h
      · rw [if_neg hc] at h
        rcases hgt : getToken env.provider env.clientId env.clientSecret st now net.tokenResult now2
          with ⟨e, st2, calls⟩
        rw [hgt] at h
        cases e with
        | error msg => simp at h
        | ok tokOpt =>
            cases ham : net.amadeusResult with
            | err status text =>
                rw [ham] at h
                simp at h
            | ok raw =>
                rw [ham] at h
                simp at h
                exact Or.inl ⟨raw, hp, rfl, h.symm⟩
    · rw [if_neg hp] at h
      by_cases hs : env.provider = "serpapi"
      · rw [if_pos hs] at h
        unfold handleSerp at h
        by_cases hk : ¬ jsTruthyS env.serpApiKey
        · rw [if_pos hk] at h
          simp at h
        · rw [if_neg hk] at h
          cases hsr : net.serpResult with
          | err status text =>
              rw [hsr] at h
              simp at h
          | ok json =>
              rw [hsr] at h
              simp at h
              exact Or.inr ⟨json, hs, rfl, h.symm⟩
      · rw [if_neg hs] at h
        simp at h

/-- Every value of the static airline table is a non-empty name. -/
theorem AIRLINE_MAP_snd_ne : ∀ p ∈ AIRLINE_MAP, p.2 ≠ "" := by decide

/-- C6: given two calls to the token accessor while the cached token is still
in its validity window (current time more than 30 seconds before the cached
expiry), the second call performs no network fetch and returns the identical
token value as the first. -/
theorem flyby_C6 (cid csec : Option String) (st : TokenState) (t : String)
    (now1 now2 fa1 fa2 : Int) (fr1 fr2 : TokenFetchResult)
    (hcache : st.cachedToken = some t) (ht : t ≠ "")
    (h1 : now1 < st.tokenExpiry - 30) (h2 : now2 < st.tokenExpiry - 30) :
    getToken "amadeus" cid csec st now1 fr1 fa1 = (Except.ok (some t), st, []) ∧
    getToken "amadeus" cid csec st now2 fr2 fa2 = (Except.ok (some t), st, []) := by
  have htr : jsTruthyS st.cachedToken = true := by
    rw [hcache]
    simp [jsTruthyS, ht]
  constructor
  · unfold getToken
    rw [if_neg (by simp), if_pos ⟨htr, h1⟩, hcache]
  · unfold getToken
    rw [if_neg (by simp), if_pos ⟨htr, h2⟩, hcache]

/-- Witness for C6 at a concrete cached state and two concrete times. -/
theorem flyby_C6_witness :
    getToken "amadeus" none none cexTokenState 0 (TokenFetchResult.err 401) 0 =
      (Except.ok (some "tok"), cexTokenState, []) ∧
    getToken "amadeus" none none cexTokenState 5 (TokenFetchResult.err 500) 7 =
      (Except.ok (some "tok"), cexTokenState, []) :=
  flyby_C6 none none cexTokenState "tok" 0 5 0 7 (TokenFetchResult.err 401)
    (TokenFetchResult.err 500) rfl (by decide) (by decide) (by decide)

/-- C7: when the token fetch returns a non-success status, `getToken` fails
with an authentication error and leaves both cache fields unchanged; the cache
is overwritten only on a successful fetch, with expiry set to the current time
plus the provider-reported lifetime. -/
theorem flyby_C7 (cid csec : Option String) (st : TokenState)
    (now now2 life : Int) (status : Nat) (tok : String)
    (hmiss : ¬ (jsTruthyS st.cachedToken ∧ now < st.tokenExpiry - 30))
    (hcid : jsTruthyS cid) (hcsec : jsTruthyS csec) :
    getToken "amadeus" cid csec st now (TokenFetchResult.err status) now2 =
      (Except.error ("Amadeus auth failed " ++ natToString status), st,
        [UpstreamCall.tokenFetch]) ∧
    getToken "amadeus" cid csec st now (TokenFetchResult.ok tok life) now2 =
      (Except.ok (some tok),
        { cachedToken := some tok, tokenExpiry := now2 + life },
        [UpstreamCall.tokenFetch]) := by
  constructor
  · unfold getToken
    rw [if_neg (by simp), if_neg hmiss, if_neg (by simp [hcid, hcsec])]
  · unfold getToken
    rw [if_neg (by simp), if_neg hmiss, if_neg (by simp [hcid, hcsec])]

/-- Witness for C7 at an empty cache and concrete fetch outcomes. -/
theorem flyby_C7_witness :
    getToken "amadeus" (some "id") (some "secret") ⟨none, 0⟩ 100
        (TokenFetchResult.err 401) 100 =
      (Except.error ("Amadeus auth failed " ++ natToString 401), ⟨none, 0⟩,
        [UpstreamCall.tokenFetch]) ∧
    getToken "amadeus" (some "id") (some "secret") ⟨none, 0⟩ 100
        (TokenFetchResult.ok "newTok" 1799) 100 =
      (Except.ok (some "newTok"), ⟨some "newTok", 100 + 1799⟩,
        [UpstreamCall.tokenFetch]) :=
  flyby_C7 (some "id") (some "secret") ⟨none, 0⟩ 100 100 1799 401 "newTok"
    (by decide) (by decide) (by decide)

/-- C8: for every request missing origin, destination, or date, the endpoint
responds 400 with an explanatory error body, and no upstream call (neither
token fetch nor provider search) is made; the cache is untouched. -/
theorem flyby_C8 (env : Env) (st : TokenState) (now now2 : Int) (net : Net)
    (q : Query)
    (h : ¬ jsTruthyS q.origin ∨ ¬ jsTruthyS q.destination ∨ ¬ jsTruthyS q.date) :
    (handleFlights env st now now2 net q).1.status = 400 ∧
    (handleFlights env st now now2 net q).1.error =
      some "Missing origin, destination, or date" ∧
    (handleFlights env st now now2 net q).2.2 = [] ∧
    (handleFlights env st now now2 net q).2.1 = st := by
  unfold handleFlights
  rw [if_pos h]
  exact ⟨rfl, rfl, rfl, rfl⟩

/-- Witness for C8 at a query whose origin is absent. -/
theorem flyby_C8_witness :
    (handleFlights cexEnvSerp cexTokenState 0 0 cexNetSerpOk cexQueryMissing).1.status = 400 ∧
    (handleFlights cexEnvSerp cexTokenState 0 0 cexNetSerpOk cexQueryMissing).1.error =
      some "Missing origin, destination, or date" ∧
    (handleFlights cexEnvSerp cexTokenState 0 0 cexNetSerpOk cexQueryMissing).2.2 = [] ∧
    (handleFlights cexEnvSerp cexTokenState 0 0 cexNetSerpOk cexQueryMissing).2.1 =
      cexTokenState :=
  flyby_C8 cexEnvSerp cexTokenState 0 0 cexNetSerpOk cexQueryMissing (by decide)

/-- C9: the airline display name of a structured-API offer resolves through
the fallback chain (provider carrier dictionary, then the static
AIRLINE_MAP, then the raw carrier code); in particular, when the carrier code
is in neither dictionary, airlineName equals the raw carrier code. -/
theorem flyby_C9 (carriers : List (String × String)) (cur : String) (o : AmOffer) :
    (∀ n, lookupDict carriers (amCarrier o) = some n → n ≠ "" →
        (mapAmadeusOffer carriers cur o).airlineName = n) ∧
    (¬ jsTruthyS (lookupDict carriers (amCarrier o)) →
        ∀ m, lookupDict AIRLINE_MAP (amCarrier o) = some m →
        (mapAmadeusOffer carriers cur o).airlineName = m) ∧
    (lookupDict carriers (amCarrier o) = none →
        lookupDict AIRLINE_MAP (amCarrier o) = none →
        (mapAmadeusOffer carriers cur o).airlineName = amCarrier o) := by
  refine ⟨?_, ?_, ?_⟩
  · intro n hn hne
    simp only [mapAmadeusOffer, amAirlineName]
    exact jsOrStrO_of_truthy _ hn hne
  · intro hfal m hm
    have hmem : ∃ p, List.find? (fun p => p.1 = amCarrier o) AIRLINE_MAP = some p ∧ p.2 = m := by
      simpa [lookupDict, Option.map_eq_some'] using hm
    obtain ⟨p, hp, hpm⟩ := hmem
    have hmne : m ≠ "" := by
      rw [← hpm]
      exact AIRLINE_MAP_snd_ne p (List.mem_of_find?_eq_some hp)
    simp only [mapAmadeusOffer, amAirlineName]
    rw [jsOrStrO_of_falsy _ (by simpa using hfal)]
    exact jsOrStrO_of_truthy _ hm hmne
  · intro h1 h2
    simp [mapAmadeusOffer, amAirlineName, h1, h2, jsOrStrO]

/-- Witness for C9: each stage of the fallback chain at a concrete offer. -/
theorem flyby_C9_witness :
    (mapAmadeusOffer [("AA", "Alpha Air")] "USD" cexOfferAA).airlineName = "Alpha Air" ∧
    (mapAmadeusOffer [] "USD" cexOfferDL).airlineName = "Delta Air Lines" ∧
    (mapAmadeusOffer [] "USD" cexOfferZZ).airlineName = "ZZ" := by
  refine ⟨?_, ?_, ?_⟩
  · exact (flyby_C9 [("AA", "Alpha Air")] "USD" cexOfferAA).1 "Alpha Air" (by decide) (by decide)
  · exact (flyby_C9 [] "USD" cexOfferDL).2.1 (by decide) "Delta Air Lines" (by decide)
  · exact (flyby_C9 [] "USD" cexOfferZZ).2.2 (by decide) (by decide)

/-- C10: a structured-API offer whose first segment has no flight number maps
to a FlightRecord whose flightNumber is the carrier code concatenated with the
literal string "undefined" (never the empty string), and its synthesized id
likewise embeds "undefined". -/
theorem flyby_C10 (carriers : List (String × String)) (cur : String) (o : AmOffer)
    (hnum : (amFirst o).number = none) :
    (mapAmadeusOffer carriers cur o).flightNumber = amCarrier o ++ "undefined" ∧
    (mapAmadeusOffer carriers cur o).flightNumber ≠ "" ∧
    (¬ jsTruthyS o.id →
      (mapAmadeusOffer carriers cur o).id =
        amCarrier o ++ "_" ++ "undefined" ++ "_" ++ tmplS (amDep o).iataCode ++ "_" ++
          tmplS (amArr o).iataCode) := by
  have e : (mapAmadeusOffer carriers cur o).flightNumber = amCarrier o ++ "undefined" := by
    simp [mapAmadeusOffer, tmplS, hnum]
  refine ⟨e, ?_, ?_⟩
  · rw [e]
    intro hcontr
    have h2 := congrArg String.length hcontr
    rw [String.length_append] at h2
    have h9 : ("undefined" : String).length = 9 := rfl
    have h0 : ("" : String).length = 0 := rfl
    omega
  · intro hid
    simp only [mapAmadeusOffer]
    rw [jsOrStrO_of_falsy _ hid]
    simp [tmplS, hnum]

/-- Witness for C10 at a concrete offer lacking a flight number and an id. -/
theorem flyby_C10_witness :
    (mapAmadeusOffer [] "USD" cexOfferNoNum).flightNumber =
      amCarrier cexOfferNoNum ++ "undefined" ∧
    (mapAmadeusOffer [] "USD" cexOfferNoNum).flightNumber ≠ "" ∧
    (mapAmadeusOffer [] "USD" cexOfferNoNum).id =
      amCarrier cexOfferNoNum ++ "_" ++ "undefined" ++ "_" ++
        tmplS (amDep cexOfferNoNum).iataCode ++ "_" ++ tmplS (amArr cexOfferNoNum).iataCode := by
  have h := flyby_C10 [] "USD" cexOfferNoNum (by decide)
  exact ⟨h.1, h.2.1, h.2.2 (by decide)⟩

/-- C4: normalization is total — every raw offer/candidate yields exactly one
record — and a missing segment list, airport, time, carrier, or price field
degrades to an empty string or null in the produced FlightRecord rather than
failing the record or the request, on both provider paths. -/
theorem flyby_C4 (carriers : List (String × String)) (cur : String) (o : AmOffer)
    (f : SerpFlight) (i : Nat) (raw : AmRaw) (json : SerpRaw) :
    ((raw.data.getD []).map (mapAmadeusOffer carriers cur)).length =
      (raw.data.getD []).length ∧
    ((serpCandidates json).enum.map (fun p => mapSerpFlight cur p.2 p.1)).length =
      (serpCandidates json).length ∧
    (o.itineraries = none →
      (mapAmadeusOffer carriers cur o).departureIATA = "" ∧
      (mapAmadeusOffer carriers cur o).arrivalIATA = "" ∧
      (mapAmadeusOffer carriers cur o).departureTime = none ∧
      (mapAmadeusOffer carriers cur o).arrivalTime = none) ∧
    ((amFirst o).carrierCode = none → o.validatingAirlineCodes = none →
      (mapAmadeusOffer carriers cur o).airline = "") ∧
    (o.priceTotal = none → (mapAmadeusOffer carriers cur o).price = none) ∧
    (f.flights = none →
      (mapSerpFlight cur f i).departureIATA = "" ∧
      (mapSerpFlight cur f i).arrivalIATA = "" ∧
      (mapSerpFlight cur f i).departureTime = none ∧
      (mapSerpFlight cur f i).arrivalTime = none ∧
      (mapSerpFlight cur f i).airline = "") ∧
    (f.price = none → (mapSerpFlight cur f i).price = none) := by
  refine ⟨List.length_map _ _, by simp [List.length_map, List.enum_length], ?_, ?_, ?_, ?_, ?_⟩
  · intro h
    have hseg : amSegs o = [] := by simp [amSegs, h]
    refine ⟨?_, ?_, ?_, ?_⟩ <;>
      simp [mapAmadeusOffer, amDep, amArr, amFirst, amLast, hseg, emptyAmSegment,
        emptyAmAirport, jsOrNullS]
  · intro h1 h2
    simp [mapAmadeusOffer, amCarrier, h1, h2, jsOrOpt]
  · intro h
    simp [mapAmadeusOffer, h]
  · intro h
    have hseg : serpSegments f = [] := by simp [serpSegments, h]
    refine ⟨?_, ?_, ?_, ?_, ?_⟩ <;>
      simp [mapSerpFlight, serpDepAirport, serpArrAirport, serpFirst, serpLast, hseg,
        emptySerpSegment, emptySerpAirport, jsOrNullS, serpAirlineCode, jsToUpper]
  · intro h
    simp [mapSerpFlight, h]

/-- Witness for C4 at fully-empty raw inputs. -/
theorem flyby_C4_witness :
    ((cexAmRaw.data.getD []).map (mapAmadeusOffer [] "USD")).length =
      (cexAmRaw.data.getD []).length ∧
    ((serpCandidates cexSerpRaw).enum.map (fun p => mapSerpFlight "USD" p.2 p.1)).length =
      (serpCandidates cexSerpRaw).length ∧
    ((mapAmadeusOffer [] "USD" cexEmptyOffer).departureIATA = "" ∧
      (mapAmadeusOffer [] "USD" cexEmptyOffer).arrivalIATA = "" ∧
      (mapAmadeusOffer [] "USD" cexEmptyOffer).departureTime = none ∧
      (mapAmadeusOffer [] "USD" cexEmptyOffer).arrivalTime = none) ∧
    (mapAmadeusOffer [] "USD" cexEmptyOffer).airline = "" ∧
    (mapAmadeusOffer [] "USD" cexEmptyOffer).price = none ∧
    ((mapSerpFlight "USD" cexEmptySerpFlight 0).departureIATA = "" ∧
      (mapSerpFlight "USD" cexEmptySerpFlight 0).arrivalIATA = "" ∧
      (mapSerpFlight "USD" cexEmptySerpFlight 0).departureTime = none ∧
      (mapSerpFlight "USD" cexEmptySerpFlight 0).arrivalTime = none ∧
      (mapSerpFlight "USD" cexEmptySerpFlight 0).airline = "") ∧
    (mapSerpFlight "USD" cexEmptySerpFlight 0).price = none := by
  have h := flyby_C4 [] "USD" cexEmptyOffer cexEmptySerpFlight 0 cexAmRaw cexSerpRaw
  exact ⟨h.1, h.2.1, h.2.2.1 rfl, h.2.2.2.1 rfl rfl, h.2.2.2.2.1 rfl,
    h.2.2.2.2.2.1 rfl, h.2.2.2.2.2.2 rfl⟩

/-- C5: for every request supplying a non-empty include allow-list, every
FlightRecord in the 200 response has an airline code belonging to the
uppercased allow-list set (case-insensitive comparison); the filter acts
after mapping on both provider paths. -/
theorem flyby_C5 (env : Env) (st : TokenState) (now now2 : Int) (net : Net)
    (q : Query) (s : String) (fl : List FlightRecord) (r : FlightRecord)
    (hs : q.include' = some s) (hne : s ≠ "") (hl : includeList s ≠ [])
    (hfl : (handleFlights env st now now2 net q).1.flights = some fl)
    (hr : r ∈ fl) : jsToUpper r.airline ∈ includeList s := by
  have hset : computeIncludeSet q.include' = some (includeList s) := by
    rw [hs]
    simp [computeIncludeSet, hne]
  rcases handleFlights_flights_inv env st now now2 net q fl hfl with
    ⟨raw, hp, ham, hfleq⟩ | ⟨json, hsp, hsr, hfleq⟩
  · subst hfleq
    rw [hset] at hr
    exact mem_amadeusFlights_include raw _ _ r hl hr
  · subst hfleq
    rw [hset] at hr
    exact mem_flattenSerpApi_include json _ _ _ r hl hr

/-- Witness for C5 at a concrete SerpApi response filtered by "dl, aa". -/
theorem flyby_C5_witness :
    jsToUpper (mapSerpFlight (jsToUpper "USD") cexSerpFlight 0).airline ∈
      includeList "dl, aa" :=
  flyby_C5 cexEnvSerp cexTokenState 0 0 cexNetSerpOk cexQueryInc "dl, aa"
    (flattenSerpApi cexSerpRaw (jsToUpper "USD") (computeMaxNum cexQueryInc.max)
      (computeIncludeSet cexQueryInc.include'))
    (mapSerpFlight (jsToUpper "USD") cexSerpFlight 0)
    rfl (by decide) (by decide) (by decide) (by decide)

/-- C1 counterexample: with `max=1` the Amadeus branch still returns a 200
response carrying both offers of the raw document — the cap is forwarded
upstream but no local truncation happens, so the flight count 2 exceeds
min(requested max, 50) = 1. -/
theorem flyby_C1_counterexample :
    computeMaxNum cexQueryMax1.max = 1 ∧
    (handleFlights cexEnvAmadeus cexTokenState 0 0 cexNetAmadeusOk cexQueryMax1).1.status = 200 ∧
    (handleFlights cexEnvAmadeus cexTokenState 0 0 cexNetAmadeusOk cexQueryMax1).1.count =
      some 2 := by
  decide

/-- C1 (amended): the flight count of a 200 response never exceeds the number
of normalized candidate records on either path, for every request; the
min(requested-or-default, 50) cap, with non-numeric max falling back to 20,
is enforced locally only on the SerpApi path, and only when the parsed cap is
positive — the Amadeus branch only forwards the cap upstream. -/
theorem flyby_C1_amended :
    (∀ env st now now2 net q json fl,
        (handleFlights env st now now2 net q).1.flights = some fl →
        env.provider = "serpapi" → net.serpResult = SearchResult.ok json →
        fl.length ≤ (serpCandidates json).length ∧
        (0 < computeMaxNum q.max → fl.length ≤ (computeMaxNum q.max).toNat)) ∧
    (∀ env st now now2 net q raw fl,
        (handleFlights env st now now2 net q).1.flights = some fl →
        env.provider = "amadeus" → net.amadeusResult = SearchResult.ok raw →
        fl.length ≤ ((raw.data).getD []).length) ∧
    (∀ s, parseIntJS s = none → computeMaxNum (some s) = 20) := by
  refine ⟨?_, ?_, ?_⟩
  · intro env st now now2 net q json fl hfl hp hsr
    rcases handleFlights_flights_inv env st now now2 net q fl hfl with
      ⟨raw, hp2, ham2, hfleq⟩ | ⟨json2, hs2, hsr2, hfleq⟩
    · rw [hp] at hp2
      exact absurd hp2 (by decide)
    · rw [hsr] at hsr2
      injection hsr2 with hj
      subst hj
      subst hfleq
      refine ⟨flattenSerpApi_length_le_candidates json _ _ _, ?_⟩
      intro hmax
      exact (flattenSerpApi_length_le json _ _ _ hmax).1
  · intro env st now now2 net q raw fl hfl hp ham
    rcases handleFlights_flights_inv env st now now2 net q fl hfl with
      ⟨raw2, hp2, ham2, hfleq⟩ | ⟨json2, hs2, hsr2, hfleq⟩
    · rw [ham] at ham2
      injection ham2 with hr
      subst hr
      subst hfleq
      exact amadeusFlights_length_le raw _ _
    · rw [hp] at hs2
      exact absurd hs2 (by decide)
  · intro s hs
    by_cases h0 : s = ""
    · subst h0
      decide
    · simp only [computeMaxNum, jsOrStrO, h0, if_false, hs, jsNumOr]
      decide

/-- Witness for C1 (amended) at concrete requests on both provider paths and
a concrete non-numeric max, with the positive-cap bound also discharged. -/
theorem flyby_C1_witness :
    ((flattenSerpApi cexSerpRaw (jsToUpper "USD") (computeMaxNum cexQueryMax1.max)
        (computeIncludeSet cexQueryMax1.include')).length ≤
      (serpCandidates cexSerpRaw).length ∧
     (flattenSerpApi cexSerpRaw (jsToUpper "USD") (computeMaxNum cexQueryMax1.max)
        (computeIncludeSet cexQueryMax1.include')).length ≤
      (computeMaxNum cexQueryMax1.max).toNat) ∧
    (amadeusFlights cexAmRaw (jsToUpper "USD") (computeIncludeSet cexQueryMax1.include')).length ≤
      ((cexAmRaw.data).getD []).length ∧
    computeMaxNum (some "abc") = 20 := by
  refine ⟨?_, ?_, ?_⟩
  · have h := flyby_C1_amended.1 cexEnvSerp cexTokenState 0 0 cexNetSerpOk cexQueryMax1
      cexSerpRaw
      (flattenSerpApi cexSerpRaw (jsToUpper "USD") (computeMaxNum cexQueryMax1.max)
        (computeIncludeSet cexQueryMax1.include'))
      (by decide) rfl rfl
    exact ⟨h.1, h.2 (by decide)⟩
  · exact flyby_C1_amended.2.1 cexEnvAmadeus cexTokenState 0 0 cexNetAmadeusOk cexQueryMax1
      cexAmRaw _ (by decide) rfl rfl
  · exact flyby_C1_amended.2.2 "abc" (by decide)

/-- C2 counterexample: a SerpApi search failing with upstream status 404 and
body "Not found" yields endpoint status 500 (not the mirrored 404) and a
detail that is a composed message, not the raw upstream body. -/
theorem flyby_C2_counterexample :
    (handleFlights cexEnvSerp cexTokenState 0 0 cexNetSerpErr cexQueryPlain).1.status = 500 ∧
    ((handleFlights cexEnvSerp cexTokenState 0 0 cexNetSerpErr cexQueryPlain).1.status = 404 →
      False) ∧
    (handleFlights cexEnvSerp cexTokenState 0 0 cexNetSerpErr cexQueryPlain).1.detail =
      some "SerpApi error 404: Not found" ∧
    ((handleFlights cexEnvSerp cexTokenState 0 0 cexNetSerpErr cexQueryPlain).1.detail =
      some "Not found" → False) := by
  decide

/-- C2 (amended): on the Amadeus path a non-success search is mirrored — the
endpoint responds with the upstream status, an error field, and the raw
upstream body as detail; on the SerpApi path a non-success search instead
produces a 500 "Server error" whose detail is the composed message
"SerpApi error <status>: <body>". -/
theorem flyby_C2_amended :
    (∀ env st now now2 net q tokOpt st2 calls status text,
        (jsTruthyS q.origin ∧ jsTruthyS q.destination ∧ jsTruthyS q.date) →
        env.provider = "amadeus" →
        ¬ (¬ jsTruthyS env.clientId ∨ ¬ jsTruthyS env.clientSecret) →
        getToken env.provider env.clientId env.clientSecret st now net.tokenResult now2 =
          (Except.ok tokOpt, st2, calls) →
        net.amadeusResult = SearchResult.err status text →
        (handleFlights env st now now2 net q).1 =
          ⟨status, some "Amadeus returned an error", some text, none, none⟩) ∧
    (∀ env st now now2 net q status text,
        (jsTruthyS q.origin ∧ jsTruthyS q.destination ∧ jsTruthyS q.date) →
        env.provider = "serpapi" → jsTruthyS env.serpApiKey →
        net.serpResult = SearchResult.err status text →
        (handleFlights env st now now2 net q).1 =
          ⟨500, some "Server error",
            some ("SerpApi error " ++ natToString status ++ ": " ++ text), none, none⟩) := by
  constructor
  · intro env st now now2 net q tokOpt st2 calls status text hq hp hcred hgt ham
    have hval : ¬ (¬ jsTruthyS q.origin ∨ ¬ jsTruthyS q.destination ∨ ¬ jsTruthyS q.date) := by
      simp [hq.1, hq.2.1, hq.2.2]
    unfold handleFlights
    rw [if_neg hval, if_pos hp]
    unfold handleAmadeus
    rw [if_neg hcred, hgt, ham]
  · intro env st now now2 net q status text hq hp hk hsr
    have hval : ¬ (¬ jsTruthyS q.origin ∨ ¬ jsTruthyS q.destination ∨ ¬ jsTruthyS q.date) := by
      simp [hq.1, hq.2.1, hq.2.2]
    have hps : env.provider ≠ "amadeus" := by
      rw [hp]
      decide
    unfold handleFlights
    rw [if_neg hval, if_neg hps, if_pos hp]
    unfold handleSerp
    rw [if_neg (by simp [hk]), hsr]

/-- Witness for C2 (amended) at concrete failing searches on both paths. -/
theorem flyby_C2_witness :
    (handleFlights cexEnvAmadeus cexTokenState 0 0 cexNetAmadeusErr cexQueryPlain).1 =
      ⟨503, some "Amadeus returned an error", some "Service down", none, none⟩ ∧
    (handleFlights cexEnvSerp cexTokenState 0 0 cexNetSerpErr cexQueryPlain).1 =
      ⟨500, some "Server error",
        some ("SerpApi error " ++ natToString 404 ++ ": " ++ "Not found"), none, none⟩ := by
  constructor
  · exact flyby_C2_amended.1 cexEnvAmadeus cexTokenState 0 0 cexNetAmadeusErr cexQueryPlain
      (some "tok") cexTokenState [] 503 "Service down" (by decide) rfl (by decide)
      rfl rfl
  · exact flyby_C2_amended.2 cexEnvSerp cexTokenState 0 0 cexNetSerpErr cexQueryPlain
      404 "Not found" (by decide) rfl (by decide) rfl

/-- C3 counterexample: two Amadeus offers without provider ids and with the
same carrier, flight number, and airports receive the same synthesized id —
the Amadeus composite omits the record index — so ids are not unique within
that 200 response. -/
theorem flyby_C3_counterexample :
    (handleFlights cexEnvAmadeus cexTokenState 0 0 cexNetAmadeusOk cexQueryPlain).1.flights =
      some (amadeusFlights cexAmRaw (jsToUpper "USD") none) ∧
    ((amadeusFlights cexAmRaw (jsToUpper "USD") none).map FlightRecord.id) =
      ["AA_100_JFK_LAX", "AA_100_JFK_LAX"] ∧
    ¬ ((amadeusFlights cexAmRaw (jsToUpper "USD") none).map FlightRecord.id).Nodup := by
  decide

/-- C3 (amended): on both paths a record's id is the provider offer id /
booking token when present, and otherwise a synthesized composite of carrier,
flight number and airports; only the SerpApi composite also embeds the
record's index, so SerpApi responses whose candidates all lack booking tokens
have pairwise distinct ids, while the Amadeus composite omits the index — any
two id-less offers with equal route fields receive identical ids, so
uniqueness within a response is not guaranteed on the Amadeus path. -/
theorem flyby_C3_amended :
    (∀ carriers cur o s, o.id = some s → s ≠ "" →
        (mapAmadeusOffer carriers cur o).id = s) ∧
    (∀ carriers cur o, ¬ jsTruthyS o.id →
        (mapAmadeusOffer carriers cur o).id =
          amCarrier o ++ "_" ++ tmplS (amFirst o).number ++ "_" ++
            tmplS (amDep o).iataCode ++ "_" ++ tmplS (amArr o).iataCode) ∧
    (∀ carriers cur o1 o2, ¬ jsTruthyS o1.id → ¬ jsTruthyS o2.id →
        amCarrier o1 = amCarrier o2 →
        (amFirst o1).number = (amFirst o2).number →
        (amDep o1).iataCode = (amDep o2).iataCode →
        (amArr o1).iataCode = (amArr o2).iataCode →
        (mapAmadeusOffer carriers cur o1).id = (mapAmadeusOffer carriers cur o2).id) ∧
    (∀ cur f idx s, f.booking_token = some s → s ≠ "" →
        (mapSerpFlight cur f idx).id = s) ∧
    (∀ cur f idx, ¬ jsTruthyS f.booking_token →
        (mapSerpFlight cur f idx).id = serpIdBase f ++ "_" ++ natToString idx) ∧
    (∀ json cur max inc,
        (∀ f ∈ serpCandidates json, ¬ jsTruthyS f.booking_token) →
        (flattenSerpApi json cur max inc).Pairwise (fun a b => a.id ≠ b.id)) := by
  have hsynth : ∀ carriers cur o, ¬ jsTruthyS (AmOffer.id o) →
      (mapAmadeusOffer carriers cur o).id =
        amCarrier o ++ "_" ++ tmplS (amFirst o).number ++ "_" ++
          tmplS (amDep o).iataCode ++ "_" ++ tmplS (amArr o).iataCode := by
    intro carriers cur o h
    simp only [mapAmadeusOffer]
    exact jsOrStrO_of_falsy _ h
  refine ⟨?_, hsynth, ?_, ?_, ?_, ?_⟩
  · intro carriers cur o s h hne
    simp only [mapAmadeusOffer]
    exact jsOrStrO_of_truthy _ h hne
  · intro carriers cur o1 o2 h1 h2 hcar hnum hdep harr
    rw [hsynth carriers cur o1 h1, hsynth carriers cur o2 h2, hcar, hnum, hdep, harr]
  · intro cur f idx s h hne
    simp only [mapSerpFlight]
    exact jsOrStrO_of_truthy _ h hne
  · intro cur f idx h
    exact mapSerpFlight_id_of_no_token cur f idx h
  · intro json cur max inc h
    exact flattenSerpApi_pairwise_id json cur max inc h

/-- Witness for C3 (amended): concrete offers and candidates with and without
provider ids, including two equal-route id-less Amadeus offers colliding. -/
theorem flyby_C3_witness :
    (mapAmadeusOffer [] "USD" cexOfferWithId).id = "OFF1" ∧
    (mapAmadeusOffer [] "USD" cexOffer1).id =
      amCarrier cexOffer1 ++ "_" ++ tmplS (amFirst cexOffer1).number ++ "_" ++
        tmplS (amDep cexOffer1).iataCode ++ "_" ++ tmplS (amArr cexOffer1).iataCode ∧
    (mapAmadeusOffer [] "USD" cexOffer1).id = (mapAmadeusOffer [] "USD" cexOffer2).id ∧
    (mapSerpFlight "USD" cexSerpTok 0).id = "tokenX" ∧
    (mapSerpFlight "USD" cexSerpFlight 0).id =
      serpIdBase cexSerpFlight ++ "_" ++ natToString 0 ∧
    (flattenSerpApi cexSerpRaw "USD" 20 none).Pairwise (fun a b => a.id ≠ b.id) :=
  ⟨flyby_C3_amended.1 [] "USD" cexOfferWithId "OFF1" rfl (by decide),
   flyby_C3_amended.2.1 [] "USD" cexOffer1 (by decide),
   flyby_C3_amended.2.2.1 [] "USD" cexOffer1 cexOffer2 (by decide) (by decide)
     rfl rfl rfl rfl,
   flyby_C3_amended.2.2.2.1 "USD" cexSerpTok 0 "tokenX" rfl (by decide),
   flyby_C3_amended.2.2.2.2.1 "USD" cexSerpFlight 0 (by decide),
   flyby_C3_amended.2.2.2.2.2 cexSerpRaw "USD" 20 none (by decide)⟩
